import Mathlib

/-
  Verification of the rag-commute-agent repository.

  The repository's executable core lives in the backend implementation guide
  (Python: LangGraph nodes of notebook 05/06, FastAPI endpoints of api.py)
  and in the React components (Calendar.tsx, TransportCalculator.tsx).
  This file gives a shallow embedding of those functions:
    - Python floats over money are modelled as exact rationals, with an
      explicit `nan` constructor for pandas missing values;
    - the external capabilities (embedding similarity, the LLM, the clock,
      Math.random) are passed in as explicit arguments;
    - Qdrant collections are lists of records carrying the same payload
      fields the code stores.
-/

namespace RagCommute

/-- A dynamically typed Python value as it occurs in the transaction
dictionaries: a string, a number, or the float NaN that pandas yields for a
missing cell. -/
inductive PyVal where
  | str (s : String)
  | num (q : Rat)
  | nan
deriving DecidableEq, Repr

/-- One CSV cell as pandas hands it to the row loop: present and numeric,
present but non-numeric text, or missing (NaN). -/
inductive CsvCell where
  | numeral (q : Rat)
  | word (s : String)
  | empty
deriving DecidableEq, Repr

/-- Python `float(x)` applied to a cell: a number converts, a missing value
stays NaN, non-numeric text raises ValueError. -/
def pyFloat : CsvCell → Except String PyVal
  | .numeral q => .ok (.num q)
  | .empty => .ok .nan
  | .word s => .error ("ValueError: could not convert string to float: " ++ s)

/-- Raw access `row[col]` to a cell: numbers and text come back as
themselves, a missing value is NaN. -/
def cellVal : CsvCell → PyVal
  | .numeral q => .num q
  | .word s => .str s
  | .empty => cellVal.nanCase
where
  /-- pandas represents the missing value as float NaN. -/
  nanCase : PyVal := .nan

/-- `row.get(col, default)`: the default replaces an absent value. -/
def rowGet (c : CsvCell) (dflt : PyVal) : PyVal :=
  match c with
  | .numeral q => .num q
  | .word s => .str s
  | .empty => dflt

/-- Python `str(x)` on the values that occur in the row dictionaries. -/
def pyStr : PyVal → String
  | .str s => s
  | .num q => toString q
  | .nan => "nan"

/-- Textual rendering of a number (stand-in for Python's float formatting;
the exact decimal rendering is immaterial to every claim). -/
def ratRepr (q : Rat) : String := toString q

/-- Round-half-to-even to an integer, the tie-breaking rule of Python's
built-in `round`. -/
def roundHalfEven (q : Rat) : Int :=
  let f := q.floor
  let r := q - f
  if r < 1/2 then f
  else if r > 1/2 then f + 1
  else if f % 2 = 0 then f else f + 1

/-- Python `round(x, 2)` over exact rationals. -/
def round2 (q : Rat) : Rat := (roundHalfEven (q * 100) : Rat) / 100

/-- Does the character list starting here begin with the pattern? -/
def matchesAt : List Char → List Char → Bool
  | [], _ => true
  | _ :: _, [] => false
  | p :: ps, c :: cs => p == c && matchesAt ps cs

/-- Python's `pat in s` substring test over character lists. -/
def hasSubList (pat : List Char) : List Char → Bool
  | [] => matchesAt pat []
  | c :: cs => matchesAt pat (c :: cs) || hasSubList pat cs

/-- `query.lower()` as a character list. -/
def lowerChars (q : String) : List Char := q.data.map Char.toLower

/-- The router's free-text heuristic `"invoice" in query.lower()`. -/
def mentionsInvoice (q : String) : Bool :=
  hasSubList "invoice".data (lowerChars q)

/-- Python truthiness of an optional string: None and the empty string are
falsy. -/
def optStrTruthy (o : Option String) : Bool := !(o.getD "").isEmpty

/-- One point of the Qdrant `documents` collection, with the payload fields
the chat endpoint stores: the text, the synthetic doc id, and the uploading
session. -/
structure DocPoint where
  text : String
  doc_id : String
  session_id : Option String
deriving DecidableEq, Repr

/-- Qdrant similarity search: the k highest-scoring points of the
collection, ranked by score. The engine applies exactly the filter it is
given; the callers modelled here pass none. -/
def qdrantSearch {α : Type} (points : List α) (score : α → Rat) (k : Nat) : List α :=
  (points.insertionSort (fun a b => score b ≤ score a)).take k

/-- A retrieved document as the RAG node stores it in the state:
`{"content": r.payload.get("text", ""), "score": r.score}`. -/
structure RetDoc where
  content : String
  score : Rat
deriving DecidableEq, Repr

/-- One stored point of the Qdrant `tfl_invoices` collection, with the
payload fields written by the upload path. -/
structure TPoint where
  invoice_id : String
  user_id : String
  date : Option String
  amount : Option Rat
  journey_type : String
deriving DecidableEq, Repr

/-- The cost-breakdown dictionary the calculation node builds:
`{"total_amount": ..., "per_day_breakdown": ..., "transactions_count": ...}`.
It has no further fields. -/
structure CostBreakdown where
  total_amount : Rat
  per_day_breakdown : List (String × Rat)
  transactions_count : Nat
deriving DecidableEq, Repr

/-- `if date not in per_day: per_day[date] = 0; per_day[date] += amount`
over an insertion-ordered dictionary. -/
def perDayAdd (m : List (String × Rat)) (d : String) (a : Rat) : List (String × Rat) :=
  match m.lookup d with
  | some v => m.map (fun p => if p.1 = d then (d, v + a) else p)
  | none => m ++ [(d, a)]

/-- The per-day accumulation loop of the calculation node. -/
def buildPerDay (l : List TPoint) : List (String × Rat) :=
  l.foldl
    (fun m t =>
      match t.date with
      | some d => perDayAdd m d (t.amount.getD 0)
      | none => m)
    []

/-- The LangGraph `AgentState` TypedDict of notebook 05, cell 2. Messages
are (role, content) pairs. -/
structure AgentState where
  messages : List (String × String)
  query : String
  request_type : String
  route_path : Option String
  retrieved_docs : List RetDoc
  context : String
  memory : List (String × String)
  invoice_id : Option String
  selected_dates : List String
  calculated_amount : Option Rat
  cost_breakdown : Option CostBreakdown
  response : String
deriving DecidableEq, Repr

/-- The state every test in the guide starts from: all fields empty. -/
def emptyState : AgentState :=
  { messages := [], query := "", request_type := "general_rag", route_path := none,
    retrieved_docs := [], context := "", memory := [], invoice_id := none,
    selected_dates := [], calculated_amount := none, cost_breakdown := none,
    response := "" }

/-- Entry node `receive_query` (notebook 05, cell 3): extract the last
message's content and classify the request. The chat heuristic fires on the
substring "invoice" or a truthy invoice_id; a truthy selected_dates then
overrides the classification to tfl_calculation. An empty message list
returns the state unchanged. -/
def receive_query (s : AgentState) : AgentState :=
  match s.messages.getLast? with
  | none => s
  | some m =>
      let query := m.2
      let rt1 := if mentionsInvoice query || optStrTruthy s.invoice_id
                 then "tfl_chat" else "general_rag"
      let rt2 := if !s.selected_dates.isEmpty then "tfl_calculation" else rt1
      { s with query := query, request_type := rt2 }

/-- Route decision node `route_request` (notebook 05, cell 4). -/
def route_request (s : AgentState) : AgentState :=
  if s.request_type = "tfl_invoice" then { s with route_path := some "process_tfl_invoice" }
  else if s.request_type = "tfl_calculation" then { s with route_path := some "calculate_cost" }
  else if s.request_type = "tfl_chat" then { s with route_path := some "tfl_chat" }
  else { s with route_path := some "rag_flow" }

/-- Conditional-edge function `route_decision` (notebook 06, cell 2). -/
def route_decision (s : AgentState) : String :=
  let route := s.route_path.getD "rag_flow"
  if route = "calculate_cost" then "calculate_cost"
  else if route = "rag_flow" then "retrieve_documents"
  else "generate_response"

/-- RAG retrieval node `retrieve_documents` (notebook 05, cell 5): search
the `documents` collection with limit 5 and keep content and score. No
filter of any kind is passed to the search. -/
def retrieve_documents (docs : List DocPoint) (sim : String → String → Rat)
    (s : AgentState) : AgentState :=
  let hits := qdrantSearch docs (fun p => sim s.query p.text) 5
  { s with retrieved_docs := hits.map (fun p => { content := p.text, score := sim s.query p.text }) }

/-- Context formatter node `format_context` (notebook 05, cell 6). -/
def format_context (s : AgentState) : AgentState :=
  let pieces := s.retrieved_docs.enum.map
    (fun p => "Document " ++ toString (p.1 + 1) ++ " (relevance: " ++
      ratRepr p.2.score ++ "):\n" ++ p.2.content)
  { s with context := String.intercalate "\n\n" pieces }

/-- LLM generation node `generate_response` (notebook 05, cell 7): build the
prompt, call the generation capability, append an AI message. -/
def generate_response (llm : String → String) (s : AgentState) : AgentState :=
  let prompt := "You are a helpful assistant. Use the provided context to answer questions." ++
      "\n\nContext:\n" ++ s.context ++ "\n\nQuestion: " ++ s.query ++ "\n\nAnswer:"
  let response_text := llm prompt
  { s with response := response_text, messages := s.messages ++ [("ai", response_text)] }

/-- TFL cost calculation node `calculate_cost` (notebook 05, cell 8): guard
on a falsy invoice_id or selected_dates, scroll the `tfl_invoices`
collection filtered by invoice_id (limit 1000), keep the transactions whose
date is among the selected dates, and sum. -/
def calculate_cost (store : List TPoint) (s : AgentState) : AgentState :=
  if s.invoice_id.getD "" = "" ∨ s.selected_dates = [] then
    { s with response := "Error: Missing invoice_id or selected_dates" }
  else
    let transactions := (store.filter (fun p => p.invoice_id = s.invoice_id.getD "")).take 1000
    let filtered := transactions.filter
      (fun t => match t.date with
                | some d => s.selected_dates.contains d
                | none => false)
    let total := (filtered.map (fun t => t.amount.getD 0)).sum
    let per_day := buildPerDay filtered
    { s with
      calculated_amount := some (round2 total),
      cost_breakdown := some
        { total_amount := round2 total,
          per_day_breakdown := per_day,
          transactions_count := filtered.length },
      response := "Total cost for selected dates: £" ++ ratRepr (round2 total) }

/-- Dispatch a node name to its function (the `add_node` table of
notebook 06, cell 2). -/
def runNode (docs : List DocPoint) (tfl : List TPoint) (sim : String → String → Rat)
    (llm : String → String) (node : String) (s : AgentState) : AgentState :=
  if node = "receive_query" then receive_query s
  else if node = "route_request" then route_request s
  else if node = "retrieve_documents" then retrieve_documents docs sim s
  else if node = "format_context" then format_context s
  else if node = "generate_response" then generate_response llm s
  else if node = "calculate_cost" then calculate_cost tfl s
  else s

/-- The edge table of the compiled graph: plain edges plus the conditional
edge out of route_request; generate_response and calculate_cost go to END. -/
def nextNode (s : AgentState) (node : String) : Option String :=
  if node = "receive_query" then some "route_request"
  else if node = "route_request" then some (route_decision s)
  else if node = "retrieve_documents" then some "format_context"
  else if node = "format_context" then some "generate_response"
  else none

/-- Fuel-bounded execution of the compiled graph, collecting the visited
node names. -/
def execTrace (docs : List DocPoint) (tfl : List TPoint) (sim : String → String → Rat)
    (llm : String → String) : Nat → String → AgentState → List String
  | 0, _, _ => []
  | fuel + 1, node, s =>
      let s' := runNode docs tfl sim llm node s
      match nextNode s' node with
      | some n => node :: execTrace docs tfl sim llm fuel n s'
      | none => [node]

/-- Fuel-bounded execution of the compiled graph, returning the final
state. -/
def execState (docs : List DocPoint) (tfl : List TPoint) (sim : String → String → Rat)
    (llm : String → String) : Nat → String → AgentState → AgentState
  | 0, _, s => s
  | fuel + 1, node, s =>
      let s' := runNode docs tfl sim llm node s
      match nextNode s' node with
      | some n => execState docs tfl sim llm fuel n s'
      | none => s'

/-- One CSV row with the columns the parsers read. -/
structure Row where
  date : CsvCell
  amount : CsvCell
  journey_type : CsvCell
  zones : CsvCell
  timestamp : CsvCell
deriving DecidableEq, Repr

/-- A transaction dictionary built by `parse_csv_invoice`
(notebook 04, cell 2). -/
structure PTransaction where
  date : PyVal
  amount : PyVal
  journey_type : PyVal
  zones : PyVal
  timestamp : PyVal
deriving DecidableEq, Repr

/-- `parse_csv_invoice` (notebook 04, cell 2): one transaction per row;
`float(row["amount"])` raises out of the whole loop on non-numeric text;
a missing timestamp defaults to `datetime.now().isoformat()`, passed here
as `now`. -/
def parse_csv_invoice (now : String) : List Row → Except String (List PTransaction)
  | [] => .ok []
  | r :: rs =>
      match pyFloat r.amount with
      | .error e => .error e
      | .ok a =>
          match parse_csv_invoice now rs with
          | .error e => .error e
          | .ok rest =>
              .ok (({ date := cellVal r.date, amount := a,
                      journey_type := rowGet r.journey_type (.str "unknown"),
                      zones := rowGet r.zones (.str ""),
                      timestamp := rowGet r.timestamp (.str now) } : PTransaction) :: rest)

/-- One stored point of `tfl_invoices` as the upload endpoint writes it:
point id `"{invoice_id}_{i}"` plus the payload. -/
structure UPoint where
  id : String
  invoice_id : String
  user_id : String
  date : String
  amount : PyVal
  journey_type : String
deriving DecidableEq, Repr

/-- The row loop of `upload_invoice` (api.py): each CSV row yields
`{"date": str(row.get("date", "")), "amount": float(row.get("amount", 0)),
"journey_type": str(row.get("journey_type", "unknown"))}`; a non-numeric
amount raises out of the request. A present-but-missing amount cell is
pandas NaN and is kept. -/
def uploadRows : List Row → Except String (List (String × PyVal × String))
  | [] => .ok []
  | r :: rs =>
      match pyFloat r.amount with
      | .error e => .error e
      | .ok a =>
          match uploadRows rs with
          | .error e => .error e
          | .ok rest =>
              .ok ((pyStr (rowGet r.date (.str "")), a,
                    pyStr (rowGet r.journey_type (.str "unknown"))) :: rest)

/-- The `for i, t in enumerate(transactions)` point-building loop of
`upload_invoice`. -/
def mkPoints (invoice_id user : String) : Nat → List (String × PyVal × String) → List UPoint
  | _, [] => []
  | i, t :: ts =>
      { id := invoice_id ++ "_" ++ toString i,
        invoice_id := invoice_id, user_id := user,
        date := t.1, amount := t.2.1, journey_type := t.2.2 } ::
      mkPoints invoice_id user (i + 1) ts

/-- `POST /api/transport/upload` (api.py): parse the CSV rows and store the
points under `invoice_id = f"invoice_{user_id or 'default'}_{int(time.time())}"`.
The clock reading is the explicit `now` argument. -/
def upload_invoice (now : Nat) (user_id : Option String) (rows : List Row) :
    Except String (String × List UPoint) :=
  match uploadRows rows with
  | .error e => .error e
  | .ok ts =>
      let invoice_id := "invoice_" ++ user_id.getD "default" ++ "_" ++ toString now
      .ok (invoice_id, mkPoints invoice_id (user_id.getD "default") 0 ts)

/-- `POST /api/chat` (api.py): store the uploaded document under the
session, then search the `documents` collection with limit 3 — no filter —
and generate from the joined texts. Returns the retrieved hits and the
answer. -/
def api_chat (docs : List DocPoint) (sim : String → String → Rat) (llm : String → String)
    (now : Nat) (fileText message : String) (session_id : Option String) :
    List DocPoint × String :=
  let doc_id := "doc_" ++ session_id.getD "default" ++ "_" ++ toString now
  let docs' := docs ++ [{ text := fileText, doc_id := doc_id, session_id := session_id }]
  let hits := qdrantSearch docs' (fun p => sim message p.text) 3
  let context := String.intercalate "\n" (hits.map (fun p => p.text))
  let prompt := "Context:\n" ++ context ++ "\n\nQuestion: " ++ message ++ "\n\nAnswer:"
  (hits, llm prompt)

/-- A JavaScript Date, reduced to its epoch-milliseconds value; the calendar
day is derived from it. -/
structure JSDate where
  time : Int
deriving DecidableEq, Repr

/-- The calendar day a Date falls on (epoch days; `getFullYear`/`getMonth`/
`getDate` of Calendar.tsx compare exactly this day identity). -/
def dayIndex (d : JSDate) : Int := d.time.fdiv 86400000

/-- `isSameDay` of Calendar.tsx. -/
def isSameDay (a b : JSDate) : Bool := dayIndex a == dayIndex b

/-- `handleDateClick` of Calendar.tsx: `findIndex` of the first entry on the
clicked day followed by `filter((_, index) => index !== existingIndex)`
removes exactly the first same-day entry (here `eraseP`); otherwise the day
is appended; the result is sorted ascending by `getTime()`. -/
def handleDateClick (selectedDates : List JSDate) (day : JSDate) : List JSDate :=
  let newDates :=
    if selectedDates.any (fun d => isSameDay d day) then
      selectedDates.eraseP (fun d => isSameDay d day)
    else
      selectedDates ++ [day]
  newDates.insertionSort (fun a b => a.time ≤ b.time)

/-- The mocked calculation of `handleCalculate` (TransportCalculator.tsx):
`selectedDates.length * 5.75 + Math.random() * 10`, with the random draw an
explicit argument. -/
def mock_total_cost (selectedDates : List JSDate) (r : Rat) : Rat :=
  selectedDates.length * (23 / 4) + r * 10

/-- The content a stored transaction point carries independently of its
synthetic id. -/
def uPointContent (u : UPoint) : String × PyVal × String :=
  (u.date, u.amount, u.journey_type)

/-- Concrete dataset: one stored transaction of invoice_001
(2024-01-15, £8.50, tube). -/
def txStore : List TPoint :=
  [{ invoice_id := "invoice_001", user_id := "default", date := some "2024-01-15",
     amount := some (17/2), journey_type := "tube" }]

/-- Concrete request: a calculation over invoice_001 selecting 2024-01-15
and the transaction-free 2024-01-17. -/
def sCalc : AgentState :=
  { emptyState with
      messages := [("human", "Calculate cost")],
      invoice_id := some "invoice_001",
      selected_dates := ["2024-01-15", "2024-01-17"] }

/-- Concrete request: a free-text chat about an invoice, no date
selection. -/
def sChat : AgentState :=
  { emptyState with
      messages := [("human", "tell me about my invoice")],
      invoice_id := some "invoice_001" }

/-- Concrete request: an invoice id but an empty date selection. -/
def sEmptySel : AgentState :=
  { emptyState with invoice_id := some "invoice_001" }

/-- Concrete request: a free-text query that mentions the invoice together
with a non-empty date selection. -/
def sDatesAndText : AgentState :=
  { emptyState with
      messages := [("human", "Summarise my invoice for these dates")],
      selected_dates := ["2024-01-15"] }

/-- Concrete cross-tenant document: a record stored by session alice. -/
def aliceDoc : DocPoint :=
  { text := "alice payroll data", doc_id := "doc_alice", session_id := some "alice" }

/-- Concrete 3-row CSV: the middle row has no amount value. -/
def rows3 : List Row :=
  [{ date := .word "2024-01-15", amount := .numeral (17/2), journey_type := .word "tube",
     zones := .empty, timestamp := .empty },
   { date := .word "2024-01-16", amount := .empty, journey_type := .word "bus",
     zones := .empty, timestamp := .empty },
   { date := .word "2024-01-17", amount := .numeral (22/5), journey_type := .word "tube",
     zones := .empty, timestamp := .empty }]

/-- Replacing the value stored under one key leaves lookups of a different
key unchanged. -/
theorem lookup_map_replace (d d' : String) (v a : Rat) (h : d ≠ d') :
    ∀ m : List (String × Rat),
      (m.map (fun p => if p.1 = d' then (d', v + a) else p)).lookup d = m.lookup d := by
  intro m
  induction m with
  | nil => rfl
  | cons p ps ih =>
      obtain ⟨k, w⟩ := p
      simp only [List.map_cons]
      by_cases hk : k = d'
      · subst hk
        rw [if_pos rfl]
        have hb : (d == k) = false := by simpa using h
        simp [List.lookup, hb, ih]
      · rw [if_neg hk]
        cases hdk : (d == k) <;> simp [List.lookup, hdk, ih]

/-- Appending an entry under a different key leaves lookups unchanged. -/
theorem lookup_append_single_ne (d d' : String) (a : Rat) (h : d ≠ d') :
    ∀ m : List (String × Rat), (m ++ [(d', a)]).lookup d = m.lookup d := by
  intro m
  induction m with
  | nil =>
      have hb : (d == d') = false := by simpa using h
      simp [List.lookup, hb]
  | cons p ps ih =>
      obtain ⟨k, w⟩ := p
      cases hdk : (d == k) <;> simp [List.lookup, hdk, ih]

/-- Looking a key up in the dictionary is unaffected by an update to a
different key. -/
theorem lookup_perDayAdd_ne (m : List (String × Rat)) (d d' : String) (a : Rat)
    (h : d ≠ d') : (perDayAdd m d' a).lookup d = m.lookup d := by
  unfold perDayAdd
  cases hl : m.lookup d' with
  | some v => exact lookup_map_replace d d' v a h m
  | none => exact lookup_append_single_ne d d' a h m

/-- A date occurring on no transaction of the list is absent from the
accumulated per-day dictionary. -/
theorem lookup_foldl_perDay_eq (d : String) :
    ∀ (l : List TPoint) (m : List (String × Rat)),
      (∀ t ∈ l, t.date ≠ some d) →
      (l.foldl
        (fun m t =>
          match t.date with
          | some d'' => perDayAdd m d'' (t.amount.getD 0)
          | none => m) m).lookup d = m.lookup d := by
  intro l
  induction l with
  | nil => intro m _; rfl
  | cons t ts ih =>
      intro m hmiss
      simp only [List.foldl_cons]
      cases ht : t.date with
      | none =>
          simp only []
          exact ih m (fun t' ht' => hmiss t' (List.mem_cons_of_mem _ ht'))
      | some d'' =>
          have hne : d ≠ d'' := by
            intro hdd
            exact hmiss t (List.mem_cons_self _ _) (by rw [ht, hdd])
          simp only []
          rw [ih _ (fun t' ht' => hmiss t' (List.mem_cons_of_mem _ ht'))]
          exact lookup_perDayAdd_ne m d d'' (t.amount.getD 0) hne

/-- Claim C3 (counterexample): over the stored invoice_001 dataset, with
2024-01-17 selected and matching no transaction, the node's breakdown does
not contain 2024-01-17 anywhere — its per-day dictionary has no entry for
it and the CostBreakdown record carries no unmatchedDates field at all. -/
theorem calculate_cost_omits_unmatched_date :
    "2024-01-17" ∈ sCalc.selected_dates ∧
    (∀ t ∈ txStore, t.date ≠ some "2024-01-17") ∧
    ((calculate_cost txStore sCalc).cost_breakdown.map
      (fun b => b.per_day_breakdown.lookup "2024-01-17")) = some none := by
  refine ⟨by decide, ?_, by rfl⟩
  intro t ht
  simp only [txStore, List.mem_singleton] at ht
  subst ht
  decide

/-- Claim C3 (amended): a selected date matching no stored transaction is
silently omitted: the node still returns a breakdown, but that date has no
entry in per_day_breakdown (and the breakdown has no unmatchedDates
diagnostic in which it could be surfaced). -/
theorem calculate_cost_unmatched_date_absent_from_breakdown
    (store : List TPoint) (s : AgentState) (d : String)
    (hid : ¬ s.invoice_id.getD "" = "")
    (hne : ¬ s.selected_dates = [])
    (hmiss : ∀ t ∈ store, t.date ≠ some d) :
    ∃ b, (calculate_cost store s).cost_breakdown = some b ∧
      b.per_day_breakdown.lookup d = none := by
  have hguard : ¬ (s.invoice_id.getD "" = "" ∨ s.selected_dates = []) := by
    push_neg
    exact ⟨hid, hne⟩
  unfold calculate_cost
  rw [if_neg hguard]
  refine ⟨_, rfl, ?_⟩
  unfold buildPerDay
  rw [lookup_foldl_perDay_eq]
  · rfl
  · intro t ht
    have h1 : t ∈ (store.filter (fun p => p.invoice_id = s.invoice_id.getD "")).take 1000 :=
      (List.mem_filter.mp ht).1
    have h2 : t ∈ store.filter (fun p => p.invoice_id = s.invoice_id.getD "") :=
      List.mem_of_mem_take h1
    exact hmiss t (List.mem_of_mem_filter h2)

/-- Claim C3 witness for the amended theorem, at the concrete dataset. -/
theorem calculate_cost_unmatched_date_absent_witness :
    ∃ b, (calculate_cost txStore sCalc).cost_breakdown = some b ∧
      b.per_day_breakdown.lookup "2024-01-17" = none :=
  calculate_cost_unmatched_date_absent_from_breakdown txStore sCalc "2024-01-17"
    (by decide) (by decide)
    (by
      intro t ht
      simp only [txStore, List.mem_singleton] at ht
      subst ht
      decide)

/-- Claim C4 (counterexample): with invoice_001 set but an empty date
selection, the calculation node does not succeed with a zero breakdown —
it writes the error response and computes no CostBreakdown at all. -/
theorem calculate_cost_empty_selection_errors :
    sEmptySel.selected_dates = [] ∧
    (calculate_cost txStore sEmptySel).response = "Error: Missing invoice_id or selected_dates" ∧
    (calculate_cost txStore sEmptySel).cost_breakdown = none ∧
    (calculate_cost txStore sEmptySel).calculated_amount = none :=
  ⟨rfl, rfl, rfl, rfl⟩

/-- Claim C4 (amended): an empty selected date set is rejected by the
node's guard: the response is the error message and neither
calculated_amount nor cost_breakdown is written. -/
theorem calculate_cost_empty_selection_error_response
    (store : List TPoint) (s : AgentState) (h : s.selected_dates = []) :
    (calculate_cost store s).response = "Error: Missing invoice_id or selected_dates" ∧
    (calculate_cost store s).cost_breakdown = s.cost_breakdown ∧
    (calculate_cost store s).calculated_amount = s.calculated_amount := by
  unfold calculate_cost
  rw [if_pos (Or.inr h)]
  exact ⟨rfl, rfl, rfl⟩

/-- Claim C4 witness for the amended theorem, at the concrete input. -/
theorem calculate_cost_empty_selection_error_witness :
    (calculate_cost txStore sEmptySel).response = "Error: Missing invoice_id or selected_dates" ∧
    (calculate_cost txStore sEmptySel).cost_breakdown = sEmptySel.cost_breakdown ∧
    (calculate_cost txStore sEmptySel).calculated_amount = sEmptySel.calculated_amount :=
  calculate_cost_empty_selection_error_response txStore sEmptySel rfl

/-- Claim C5 (counterexample): the frontend's cost calculation
(handleCalculate) adds a Math.random() draw, so two runs over the same
selected dates yield different totals — the computation is not a function
of its inputs. -/
theorem handleCalculate_mock_not_deterministic :
    mock_total_cost [{ time := 0 }] 0 ≠ mock_total_cost [{ time := 0 }] (1/2) := by
  unfold mock_total_cost
  norm_num

/-- Claim C5 (amended): the backend calculation node is deterministic in
its actual inputs: two states agreeing on invoice_id and selected_dates
(with the guard passing) produce identical calculated_amount,
cost_breakdown and response over the same stored dataset, whatever their
other fields. -/
theorem calculate_cost_deterministic_in_inputs
    (store : List TPoint) (s1 s2 : AgentState)
    (hid : s1.invoice_id = s2.invoice_id)
    (hdates : s1.selected_dates = s2.selected_dates)
    (htr : ¬ s1.invoice_id.getD "" = "")
    (hne : ¬ s1.selected_dates = []) :
    (calculate_cost store s1).calculated_amount = (calculate_cost store s2).calculated_amount ∧
    (calculate_cost store s1).cost_breakdown = (calculate_cost store s2).cost_breakdown ∧
    (calculate_cost store s1).response = (calculate_cost store s2).response := by
  have h1 : ¬ (s1.invoice_id.getD "" = "" ∨ s1.selected_dates = []) := by
    push_neg
    exact ⟨htr, hne⟩
  have h2 : ¬ (s2.invoice_id.getD "" = "" ∨ s2.selected_dates = []) := by
    rw [← hid, ← hdates]
    exact h1
  unfold calculate_cost
  rw [if_neg h1, if_neg h2, hid, hdates]
  exact ⟨rfl, rfl, rfl⟩

/-- Claim C5 witness for the amended theorem: two states with the same
calculation inputs but different chat fields. -/
theorem calculate_cost_deterministic_witness :
    (calculate_cost txStore sCalc).calculated_amount =
      (calculate_cost txStore { sCalc with query := "other", response := "x" }).calculated_amount ∧
    (calculate_cost txStore sCalc).cost_breakdown =
      (calculate_cost txStore { sCalc with query := "other", response := "x" }).cost_breakdown ∧
    (calculate_cost txStore sCalc).response =
      (calculate_cost txStore { sCalc with query := "other", response := "x" }).response :=
  calculate_cost_deterministic_in_inputs txStore sCalc
    { sCalc with query := "other", response := "x" } rfl rfl (by decide) (by decide)

/-- Claim C8 (counterexample): a 3-row CSV whose middle row is missing its
amount parses to three transactions — the row is kept with a NaN amount,
not dropped, and the result carries no skippedRows diagnostic (the
transaction list is the entire output). -/
theorem parse_csv_three_rows_yields_three_transactions :
    ∃ ts, parse_csv_invoice "2024-02-01T00:00:00" rows3 = .ok ts ∧
      ts.length = 3 ∧ ts.length ≠ 2 :=
  ⟨_, rfl, rfl, by decide⟩

/-- Claim C8 (amended): parse_csv_invoice never drops a row: whenever it
succeeds it returns exactly one transaction per input row (a missing
amount becomes NaN and the row is kept; a non-numeric amount instead
raises, aborting the whole parse); no skippedRows count exists. -/
theorem parse_csv_keeps_every_row (now : String) :
    ∀ (rows : List Row) (ts : List PTransaction),
      parse_csv_invoice now rows = .ok ts → ts.length = rows.length := by
  intro rows
  induction rows with
  | nil =>
      intro ts h
      simp only [parse_csv_invoice] at h
      cases h
      rfl
  | cons r rs ih =>
      intro ts h
      simp only [parse_csv_invoice] at h
      cases hf : pyFloat r.amount with
      | error e => rw [hf] at h; cases h
      | ok a =>
          rw [hf] at h
          cases hr : parse_csv_invoice now rs with
          | error e => rw [hr] at h; cases h
          | ok rest =>
              rw [hr] at h
              cases h
              simp only [List.length_cons]
              rw [ih rest hr]

/-- Claim C8 witness for the amended theorem, at the concrete CSV and its
concrete parse result. -/
theorem parse_csv_keeps_every_row_witness :
    ([{ date := .str "2024-01-15", amount := .num (17/2), journey_type := .str "tube",
        zones := .str "", timestamp := .str "2024-02-01T00:00:00" },
      { date := .str "2024-01-16", amount := .nan, journey_type := .str "bus",
        zones := .str "", timestamp := .str "2024-02-01T00:00:00" },
      { date := .str "2024-01-17", amount := .num (22/5), journey_type := .str "tube",
        zones := .str "", timestamp := .str "2024-02-01T00:00:00" }] : List PTransaction).length
      = rows3.length :=
  parse_csv_keeps_every_row "2024-02-01T00:00:00" rows3 _ rfl

/-- Claim C9 (counterexample): uploading the identical CSV at two
different clock readings produces different transaction ids — the ids
embed int(time.time()), not the file content. -/
theorem upload_invoice_ids_depend_on_time :
    (upload_invoice 100 none rows3).map (fun p => p.2.map (fun u => u.id)) =
      .ok ["invoice_default_100_0", "invoice_default_100_1", "invoice_default_100_2"] ∧
    (upload_invoice 101 none rows3).map (fun p => p.2.map (fun u => u.id)) =
      .ok ["invoice_default_101_0", "invoice_default_101_1", "invoice_default_101_2"] ∧
    (upload_invoice 100 none rows3).map (fun p => p.2.map (fun u => u.id)) ≠
      (upload_invoice 101 none rows3).map (fun p => p.2.map (fun u => u.id)) := by
  refine ⟨rfl, rfl, fun hcontra => ?_⟩
  rw [show (upload_invoice 100 none rows3).map (fun p => p.2.map (fun u => u.id)) =
        .ok ["invoice_default_100_0", "invoice_default_100_1", "invoice_default_100_2"] from rfl,
      show (upload_invoice 101 none rows3).map (fun p => p.2.map (fun u => u.id)) =
        .ok ["invoice_default_101_0", "invoice_default_101_1", "invoice_default_101_2"] from rfl]
    at hcontra
  exact absurd (Except.ok.inj hcontra) (by decide)

/-- The enumerate loop only writes the index into the id; the stored
content is the parsed rows themselves. -/
theorem mkPoints_content (invoice_id user : String) :
    ∀ (i : Nat) (ts : List (String × PyVal × String)),
      (mkPoints invoice_id user i ts).map uPointContent = ts := by
  intro i ts
  induction ts generalizing i with
  | nil => rfl
  | cons t rest ih => simp [mkPoints, uPointContent, ih]

/-- Claim C9 (amended): the parsed transaction content (date, amount,
journey type) is deterministic from the file alone — identical across
uploads at any two clock readings — while the ids embed the upload time. -/
theorem upload_invoice_content_time_independent
    (now1 now2 : Nat) (user : Option String) (rows : List Row) :
    (upload_invoice now1 user rows).map (fun p => p.2.map uPointContent) =
      (upload_invoice now2 user rows).map (fun p => p.2.map uPointContent) := by
  unfold upload_invoice
  cases h : uploadRows rows with
  | error e => rfl
  | ok ts => simp [Except.map, mkPoints_content]

/-- Claim C2 (counterexample): a payload carrying both a free-text query
that mentions the invoice and a non-empty date selection is classified
tfl_calculation — the date selection overrides the chat context, where the
claimed precedence requires the free-text-with-invoice-context branch
(invoiceChat) to win; no invoiceUpload or combined classification exists in
receive_query at all. -/
theorem receive_query_dates_override_chat_context :
    mentionsInvoice "Summarise my invoice for these dates" = true ∧
    sDatesAndText.selected_dates ≠ [] ∧
    (receive_query sDatesAndText).request_type = "tfl_calculation" ∧
    (receive_query sDatesAndText).request_type ≠ "tfl_chat" :=
  ⟨by decide, by decide, rfl, by decide⟩

/-- Claim C2 (amended): the classification actually implemented checks, in
effect, in this order: a truthy selected_dates always wins
(tfl_calculation); otherwise a query containing "invoice" or a truthy
invoice_id gives tfl_chat; otherwise general_rag. There is no branch for
raw invoice bytes and no combined kind. -/
theorem receive_query_classification_order (s : AgentState) (m : String × String)
    (hlast : s.messages.getLast? = some m) :
    (receive_query s).request_type =
      (if s.selected_dates.isEmpty then
        (if mentionsInvoice m.2 || optStrTruthy s.invoice_id then "tfl_chat" else "general_rag")
       else "tfl_calculation") := by
  unfold receive_query
  rw [hlast]
  cases hsel : s.selected_dates.isEmpty <;>
    cases hinv : mentionsInvoice m.2 || optStrTruthy s.invoice_id <;>
      simp [hsel, hinv]

/-- Claim C2 witness for the amended theorem, at the concrete input. -/
theorem receive_query_classification_order_witness :
    (receive_query sDatesAndText).request_type =
      (if sDatesAndText.selected_dates.isEmpty then
        (if mentionsInvoice ("human", "Summarise my invoice for these dates").2 ||
             optStrTruthy sDatesAndText.invoice_id then "tfl_chat" else "general_rag")
       else "tfl_calculation") :=
  receive_query_classification_order sDatesAndText
    ("human", "Summarise my invoice for these dates") (by decide)

/-- A state classified tfl_calculation is routed to the calculate_cost
path. -/
theorem route_request_calculation (s : AgentState) (h : s.request_type = "tfl_calculation") :
    route_request s = { s with route_path := some "calculate_cost" } := by
  unfold route_request
  rw [h]
  rw [if_neg (by decide : ¬ ("tfl_calculation" : String) = "tfl_invoice"), if_pos rfl]

/-- The conditional edge sends a calculate_cost route to the
calculate_cost node. -/
theorem route_decision_on_calculate (s : AgentState) (h : s.route_path = some "calculate_cost") :
    route_decision s = "calculate_cost" := by
  unfold route_decision
  rw [h]
  rfl

/-- Claim C6: on the calculation-classified path, the compiled graph runs
receive_query, route_request and calculate_cost and reaches END — the
generation node is never visited. -/
theorem calculation_path_skips_generation (docs : List DocPoint) (tfl : List TPoint)
    (sim : String → String → Rat) (llm : String → String) (s : AgentState)
    (hclass : (receive_query s).request_type = "tfl_calculation") :
    "generate_response" ∉ execTrace docs tfl sim llm 10 "receive_query" s := by
  have e1 : execTrace docs tfl sim llm 10 "receive_query" s =
      "receive_query" :: execTrace docs tfl sim llm 9 "route_request" (receive_query s) := rfl
  have hroute : route_request (receive_query s) =
      { receive_query s with route_path := some "calculate_cost" } :=
    route_request_calculation _ hclass
  have e2 : execTrace docs tfl sim llm 9 "route_request" (receive_query s) =
      "route_request" :: execTrace docs tfl sim llm 8
        (route_decision (route_request (receive_query s))) (route_request (receive_query s)) := rfl
  have hdec : route_decision (route_request (receive_query s)) = "calculate_cost" := by
    rw [hroute]
    exact route_decision_on_calculate _ rfl
  have e3 : execTrace docs tfl sim llm 8 "calculate_cost" (route_request (receive_query s)) =
      ["calculate_cost"] := rfl
  rw [e1, e2, hdec, e3]
  decide

/-- Claim C6 witness: the concrete calculation request never reaches the
generation node. -/
theorem calculation_path_skips_generation_witness :
    "generate_response" ∉ execTrace [] txStore (fun _ _ => 0) (fun _ => "ans") 10
      "receive_query" sCalc :=
  calculation_path_skips_generation [] txStore (fun _ _ => 0) (fun _ => "ans") sCalc (by decide)

/-- receive_query never writes the memory field. -/
theorem receive_query_preserves_memory (s : AgentState) :
    (receive_query s).memory = s.memory := by
  unfold receive_query
  cases s.messages.getLast? <;> rfl

/-- route_request never writes the memory field. -/
theorem route_request_preserves_memory (s : AgentState) :
    (route_request s).memory = s.memory := by
  unfold route_request
  split <;> try rfl
  split <;> try rfl
  split <;> rfl

/-- calculate_cost never writes the memory field. -/
theorem calculate_cost_preserves_memory (tfl : List TPoint) (s : AgentState) :
    (calculate_cost tfl s).memory = s.memory := by
  unfold calculate_cost
  split <;> rfl

/-- No node of the compiled graph writes the memory field. -/
theorem runNode_preserves_memory (docs : List DocPoint) (tfl : List TPoint)
    (sim : String → String → Rat) (llm : String → String) (node : String) (s : AgentState) :
    (runNode docs tfl sim llm node s).memory = s.memory := by
  unfold runNode
  split
  · exact receive_query_preserves_memory s
  split
  · exact route_request_preserves_memory s
  split
  · rfl
  split
  · rfl
  split
  · rfl
  split
  · exact calculate_cost_preserves_memory tfl s
  · rfl

/-- Claim C7 (amended): no execution of the compiled graph ever updates
conversational memory: the memory field of the final state equals that of
the initial state on every path — chat paths included; the update_memory
node of the flow document was never added to the graph. -/
theorem pipeline_never_writes_memory (docs : List DocPoint) (tfl : List TPoint)
    (sim : String → String → Rat) (llm : String → String) :
    ∀ (fuel : Nat) (node : String) (s : AgentState),
      (execState docs tfl sim llm fuel node s).memory = s.memory := by
  intro fuel
  induction fuel with
  | zero => intro node s; rfl
  | succ n ih =>
      intro node s
      show (execState docs tfl sim llm (n + 1) node s).memory = s.memory
      rw [execState]
      split
      · rw [ih]
        exact runNode_preserves_memory docs tfl sim llm node s
      · exact runNode_preserves_memory docs tfl sim llm node s

/-- Claim C7 (counterexample): a free-text chat request does pass through
the generation node, yet after the run the conversational memory is still
empty — the new turn was not stored anywhere. -/
theorem chat_path_leaves_memory_empty :
    sChat.memory = [] ∧
    "generate_response" ∈ execTrace [] [] (fun _ _ => 0) (fun _ => "the answer") 10
      "receive_query" sChat ∧
    (execState [] [] (fun _ _ => 0) (fun _ => "the answer") 10 "receive_query" sChat).memory
      = [] :=
  ⟨rfl, by decide, rfl⟩

/-- Claim C1 (counterexample): the chat endpoint's retrieval returns a
record stored by a different session/owner: with alice's document in the
collection, bob's chat query gets alice's record among the hits — no owner
post-filter is applied. -/
theorem chat_retrieval_returns_cross_owner_record :
    aliceDoc.session_id ≠ some "bob" ∧
    aliceDoc ∈ (api_chat [aliceDoc] (fun _ _ => 1) (fun _ => "ok") 5
      "bob file" "what is in my file" (some "bob")).1 :=
  ⟨by decide, by decide⟩

/-- Claim C1 (amended): the similarity retrieval applies no owner
condition whatsoever: every hit the RAG node stores comes from the
collection purely by similarity rank — membership never depends on the
requester's identity, so cross-tenant records are returned whenever they
score high enough. -/
theorem retrieve_documents_no_owner_filtering (docs : List DocPoint)
    (sim : String → String → Rat) (s : AgentState) (r : RetDoc)
    (h : r ∈ (retrieve_documents docs sim s).retrieved_docs) :
    ∃ p ∈ docs, r = { content := p.text, score := sim s.query p.text } := by
  unfold retrieve_documents at h
  simp only [List.mem_map] at h
  obtain ⟨p, hp, hr⟩ := h
  refine ⟨p, ?_, hr.symm⟩
  have h1 : p ∈ docs.insertionSort (fun a b => sim s.query b.text ≤ sim s.query a.text) :=
    List.mem_of_mem_take (by simpa [qdrantSearch] using hp)
  exact (List.perm_insertionSort _ docs).mem_iff.mp h1

/-- Claim C1 witness for the amended theorem, at the concrete store. -/
theorem retrieve_documents_no_owner_filtering_witness :
    ∃ p ∈ [aliceDoc],
      ({ content := "alice payroll data", score := 1 } : RetDoc) =
        { content := p.text, score := (fun _ _ => (1 : Rat)) "q" p.text } :=
  retrieve_documents_no_owner_filtering [aliceDoc] (fun _ _ => 1)
    { emptyState with query := "q" }
    { content := "alice payroll data", score := 1 } (by decide)

/-- Two Dates are the same calendar day exactly when their day indices
agree. -/
theorem isSameDay_iff (a b : JSDate) : isSameDay a b = true ↔ dayIndex a = dayIndex b := by
  simp [isSameDay]

/-- Claim C10: clicking a day on a sorted, same-day-duplicate-free
selection yields a selection that is again sorted ascending and duplicate
free per calendar day, in which the clicked day is present exactly when it
was absent before, every other day's entries unchanged. (The sortedness
hypothesis is part of the claim's precondition; the handler re-sorts
unconditionally, so the conclusion's sortedness holds even without it.) -/
theorem handleDateClick_toggles_clicked_day (dates : List JSDate) (day : JSDate)
    (hsorted : List.Sorted (fun a b : JSDate => a.time ≤ b.time) dates)
    (hdistinct : List.Pairwise (fun a b : JSDate => dayIndex a ≠ dayIndex b) dates) :
    List.Sorted (fun a b : JSDate => a.time ≤ b.time) (handleDateClick dates day) ∧
    List.Pairwise (fun a b : JSDate => dayIndex a ≠ dayIndex b) (handleDateClick dates day) ∧
    ((∃ e ∈ handleDateClick dates day, dayIndex e = dayIndex day) ↔
      ¬ ∃ e ∈ dates, dayIndex e = dayIndex day) ∧
    (∀ e : JSDate, dayIndex e ≠ dayIndex day →
      (e ∈ handleDateClick dates day ↔ e ∈ dates)) := by
  haveI : IsTotal JSDate (fun a b => a.time ≤ b.time) := ⟨fun a b => Int.le_total a.time b.time⟩
  haveI : IsTrans JSDate (fun a b => a.time ≤ b.time) :=
    ⟨fun a b c h1 h2 => le_trans h1 h2⟩
  have hsymm : ∀ {x y : JSDate}, dayIndex x ≠ dayIndex y → dayIndex y ≠ dayIndex x :=
    fun h he => h he.symm
  have hres : handleDateClick dates day =
      (if dates.any (fun d => isSameDay d day) then
        dates.eraseP (fun d => isSameDay d day)
       else dates ++ [day]).insertionSort (fun a b => a.time ≤ b.time) := rfl
  by_cases hany : dates.any (fun d => isSameDay d day) = true
  · -- the clicked day is already selected: the first same-day entry is removed
    have hres2 : handleDateClick dates day =
        (dates.eraseP (fun d => isSameDay d day)).insertionSort (fun a b => a.time ≤ b.time) := by
      rw [hres, if_pos hany]
    have hperm : (handleDateClick dates day).Perm (dates.eraseP (fun d => isSameDay d day)) := by
      rw [hres2]
      exact List.perm_insertionSort _ _
    obtain ⟨a, ha, hpa⟩ := List.any_eq_true.mp hany
    obtain ⟨a', l₁, l₂, hl₁, hpa', hsplit, herase⟩ :=
      @List.exists_of_eraseP _ (fun d => isSameDay d day) dates a ha hpa
    have hmem : ∀ x, x ∈ handleDateClick dates day ↔ x ∈ dates.eraseP (fun d => isSameDay d day) :=
      fun x => hperm.mem_iff
    refine ⟨?_, ?_, ?_, ?_⟩
    · rw [hres2]
      exact List.sorted_insertionSort _ _
    · refine (List.Perm.pairwise_iff hsymm hperm).mpr ?_
      exact List.Pairwise.sublist (List.eraseP_sublist dates) hdistinct
    · refine iff_of_false ?_ ?_
      · rintro ⟨e, he, hde⟩
        rw [hmem e, herase] at he
        have hpe : isSameDay e day = true := (isSameDay_iff e day).mpr hde
        rcases List.mem_append.mp he with h1 | h2
        · exact hl₁ e h1 hpe
        · -- e comes after the removed entry, both on the clicked day
          rw [hsplit] at hdistinct
          have hp2 := (List.pairwise_append.mp hdistinct).2.1
          have hrel := (List.pairwise_cons.mp hp2).1 e h2
          exact hrel (((isSameDay_iff a' day).mp hpa').trans hde.symm)
      · rw [not_not]
        exact ⟨a', by rw [hsplit]; exact List.mem_append_right _ (List.mem_cons_self _ _),
          (isSameDay_iff a' day).mp hpa'⟩
    · intro e hene
      rw [hmem e, herase]
      constructor
      · intro he
        rw [hsplit]
        rcases List.mem_append.mp he with h1 | h2
        · exact List.mem_append_left _ h1
        · exact List.mem_append_right _ (List.mem_cons_of_mem _ h2)
      · intro he
        rw [hsplit] at he
        rcases List.mem_append.mp he with h1 | h2
        · exact List.mem_append_left _ h1
        · rcases List.mem_cons.mp h2 with h3 | h4
          · exact absurd (h3 ▸ (isSameDay_iff a' day).mp hpa') hene
          · exact List.mem_append_right _ h4
  · -- the clicked day is not yet selected: it is appended
    have hres2 : handleDateClick dates day =
        (dates ++ [day]).insertionSort (fun a b => a.time ≤ b.time) := by
      rw [hres, if_neg hany]
    have hperm : (handleDateClick dates day).Perm (dates ++ [day]) := by
      rw [hres2]
      exact List.perm_insertionSort _ _
    have hforall : ∀ e ∈ dates, dayIndex e ≠ dayIndex day := by
      intro e he hd
      exact hany (List.any_eq_true.mpr ⟨e, he, (isSameDay_iff e day).mpr hd⟩)
    have hmem : ∀ x, x ∈ handleDateClick dates day ↔ x ∈ dates ++ [day] :=
      fun x => hperm.mem_iff
    refine ⟨?_, ?_, ?_, ?_⟩
    · rw [hres2]
      exact List.sorted_insertionSort _ _
    · refine (List.Perm.pairwise_iff hsymm hperm).mpr ?_
      refine List.pairwise_append.mpr ⟨hdistinct, List.pairwise_singleton _ _, ?_⟩
      intro x hx y hy
      rw [List.mem_singleton] at hy
      subst hy
      exact hforall x hx
    · refine iff_of_true ?_ ?_
      · exact ⟨day, (hmem day).mpr (List.mem_append_right _ (List.mem_singleton.mpr rfl)), rfl⟩
      · rintro ⟨e, he, hd⟩
        exact hforall e he hd
    · intro e hene
      rw [hmem e]
      constructor
      · intro he
        rcases List.mem_append.mp he with h1 | h2
        · exact h1
        · exact absurd (List.mem_singleton.mp h2 ▸ rfl) hene
      · intro he
        exact List.mem_append_left _ he

/-- Claim C10 witness, at the empty selection. -/
theorem handleDateClick_toggles_witness :
    List.Sorted (fun a b : JSDate => a.time ≤ b.time) (handleDateClick [] { time := 0 }) ∧
    List.Pairwise (fun a b : JSDate => dayIndex a ≠ dayIndex b) (handleDateClick [] { time := 0 }) ∧
    ((∃ e ∈ handleDateClick [] { time := 0 }, dayIndex e = dayIndex { time := 0 }) ↔
      ¬ ∃ e ∈ ([] : List JSDate), dayIndex e = dayIndex { time := 0 }) ∧
    (∀ e : JSDate, dayIndex e ≠ dayIndex { time := 0 } →
      (e ∈ handleDateClick [] { time := 0 } ↔ e ∈ ([] : List JSDate))) :=
  handleDateClick_toggles_clicked_day [] { time := 0 } (by simp) (by simp)

end RagCommute
